import Mathlib

/-!
Verification development for the gNMI-based IDN controller
(src/controller_v1.py and src/gnmi_client_v1.py).

The Python code is shallowly embedded: dynamic dict/JSON values become the
`Json` inductive, Python exceptions become `Except`, and the kopf handlers
of controller_v1.py become pure functions parameterised by an oracle that
stands for the device side effects (gNMI set/get over the network).
Wall-clock timestamps and emoji decorations inside log/status message
strings are elided; everything the claims touch is translated faithfully
from the source.
-/

/-- Python-style JSON-ish values as produced and consumed by pygnmi. -/
inductive Json where
  | null
  | str (s : String)
  | num (n : Int)
  | arr (elems : List Json)
  | obj (fields : List (String × Json))

/-- The Python exception classes the embedded code can raise. -/
inductive PyError where
  | keyError
  | indexError
  | typeError
  | attributeError
deriving Repr, DecidableEq

/-- First binding of a key in an object literal (the dict literals built by
the source never repeat a key). -/
def lookupField : List (String × Json) → String → Option Json
  | [], _ => none
  | (k, v) :: rest, key => if k = key then some v else lookupField rest key

/-- Python truthiness of a value (bool(v)). -/
def truthyJson : Json → Bool
  | .null => false
  | .str s => !s.isEmpty
  | .num n => n != 0
  | .arr l => !l.isEmpty
  | .obj l => !l.isEmpty

/-- Python subscript v[key] with a string key: KeyError on a dict without the
key, TypeError on any non-dict. -/
def subscriptStr : Json → String → Except PyError Json
  | .obj fields, key =>
      match lookupField fields key with
      | some v => .ok v
      | none => .error .keyError
  | _, _ => .error .typeError

/-- Python subscript v[i] with a non-negative integer: lists and strings
index (IndexError out of range), dicts raise KeyError, the rest TypeError. -/
def subscriptNat : Json → Nat → Except PyError Json
  | .arr l, i =>
      match l.get? i with
      | some v => .ok v
      | none => .error .indexError
  | .str s, i =>
      match s.toList.get? i with
      | some c => .ok (.str (String.mk [c]))
      | none => .error .indexError
  | .obj _, _ => .error .keyError
  | _, _ => .error .typeError

/-- Python v.get(key): None for a missing key; AttributeError when v is not
a dict. -/
def dictGet : Json → String → Except PyError Json
  | .obj fields, key => .ok ((lookupField fields key).getD .null)
  | _, _ => .error .attributeError

/-- Python v.get(key, default); AttributeError when v is not a dict. -/
def dictGetD : Json → String → Json → Except PyError Json
  | .obj fields, key, dflt => .ok ((lookupField fields key).getD dflt)
  | _, _, _ => .error .attributeError

/-- Python v.upper(): AttributeError unless v is a string. -/
def pyUpperStr : Json → Except PyError String
  | .str s => .ok s.toUpper
  | _ => .error .attributeError

/-- Python == between a value and a string: true exactly when the value is
that string (values of different types compare unequal). -/
def jsonEqStr : Json → String → Bool
  | .str s, t => s = t
  | _, _ => false

/-- Rendering of an optional string the way a Python f-string renders a
possibly-None value. -/
def optStr : Option String → String
  | some s => s
  | none => "None"

/-- Rendering of an optional integer the way a Python f-string renders a
possibly-None value. -/
def optIntStr : Option Int → String
  | some n => toString n
  | none => "None"

/-- One attachment point as read from the endpoint dict of the slice spec
(the keys gnmi_client_v1.py actually reads: routerName, interfaceName,
vlanID, sdpId, ipAddress); an absent key is `none`. -/
structure EndpointSpec where
  routerName : Option String := none
  interfaceName : Option String := none
  vlanID : Option Int := none
  sdpId : Option Int := none
  ipAddress : Option String := none
deriving Repr, DecidableEq

/-- The slice spec dict: the keys the source reads, an absent key is `none`.
`customer` is stored already stringified (the source applies str() to it);
`remoteSdpId` is the remote_sdpId entry the controller adds for ePipe;
`endpoints` stands for spec.get('endpoints', []). -/
structure SliceSpec where
  serviceType : Option String := none
  serviceId : Option String := none
  serviceName : Option String := none
  customer : Option String := none
  description : Option String := none
  adminState : Option String := none
  routerId : Option String := none
  vplsType : Option String := none
  remoteSdpId : Option Int := none
  endpoints : List EndpointSpec := []
deriving Repr, DecidableEq

/-- self.service_id = slice_spec.get('serviceId', 'N/A'). -/
def serviceIdOf (s : SliceSpec) : String := s.serviceId.getD "N/A"

/-- self.service_name = slice_spec.get('serviceName', f"{service_type}_{service_id}"). -/
def serviceNameOf (s : SliceSpec) : String :=
  s.serviceName.getD (optStr s.serviceType ++ "_" ++ serviceIdOf s)

/-- self.description = slice_spec.get('description', f"Service {service_type} {service_id}"). -/
def descriptionOf (s : SliceSpec) : String :=
  s.description.getD ("Service " ++ optStr s.serviceType ++ " " ++ serviceIdOf s)

/-- self.customer_id = str(slice_spec.get('customer', 1)). -/
def customerIdOf (s : SliceSpec) : String := s.customer.getD "1"

/-- f"{slice_spec.get('adminState', 'enable')}" as used by the payloads and
the drift check. -/
def adminStateOf (s : SliceSpec) : String := s.adminState.getD "enable"

/-- gNMIClient._get_base_service_payload. -/
def get_base_service_payload (s : SliceSpec) : List (String × Json) :=
  [("admin-state", .str (adminStateOf s)),
   ("description", .str (descriptionOf s)),
   ("customer", .str (customerIdOf s)),
   ("service-id", .str (serviceIdOf s))]

/-- Python str.lower() on the ASCII service-type names: character-wise
lowercasing. -/
def pyLower (s : String) : String := String.mk (s.data.map Char.toLower)

/-- gNMIClient._get_service_update_path. -/
def get_service_update_path (s : SliceSpec) (serviceType : String) : String :=
  "/configure/service/" ++ pyLower serviceType ++ "[service-name=" ++ serviceNameOf s ++ "]"

/-- gNMIClient._get_vpls_payload: the updates list [(path, payload)]. -/
def get_vpls_payload (e : EndpointSpec) (s : SliceSpec) : List (String × Json) :=
  let sdpType := if s.vplsType.getD "mesh-sdp" = "mesh-sdp" then "mesh-sdp" else "spoke-sdp"
  let payload := get_base_service_payload s ++
    [(sdpType, .arr [.obj [("sdp-bind-id", .str (optIntStr (some (e.sdpId.getD 1000)) ++ ":" ++ serviceIdOf s))]]),
     ("sap", .arr [.obj [("sap-id", .str (optStr e.interfaceName ++ ":" ++ optIntStr e.vlanID)),
                         ("admin-state", .str "enable")]])]
  [(get_service_update_path s "VPLS", .obj payload)]

/-- gNMIClient._get_epipe_payload: the updates list [(path, payload)].
Note: the sdp-bind-id is built from the LOCAL endpoint's own sdpId
(endpoint_spec.get('sdpId', 1000)); the remote_sdpId entry the controller
places in the slice spec is never read here. -/
def get_epipe_payload (e : EndpointSpec) (s : SliceSpec) : List (String × Json) :=
  let payload := get_base_service_payload s ++
    [("sap", .arr [.obj [("sap-id", .str (optStr e.interfaceName ++ ":" ++ optIntStr e.vlanID))]]),
     ("spoke-sdp", .obj [("sdp-bind-id", .str (optIntStr (some (e.sdpId.getD 1000)) ++ ":" ++ serviceIdOf s))])]
  [(get_service_update_path s "ePipe", .obj payload)]

/-- gNMIClient.get_config, given the gNMI Get response: returns
response['notification'][0]['update'][0]['val'] when both truthiness tests
pass, the raw string "\x7b\x7d" otherwise; lookup errors propagate (there is
no try/except in the source function). -/
def get_config (response : Json) : Except PyError Json := do
  let n0 ← subscriptNat (← subscriptStr response "notification") 0
  if truthyJson n0 then
    let u0 ← subscriptNat (← subscriptStr n0 "update") 0
    if truthyJson u0 then
      subscriptStr u0 "val"
    else
      pure (.str "\x7b\x7d")
  else
    pure (.str "\x7b\x7d")

/-- Body of the for-loop over observed_saps in check_for_drift: each element
must be a dict (sap.get raises AttributeError otherwise); stops at the first
element whose sap-id equals the desired SAP. -/
def sapSearchList : List Json → String → Except PyError Bool
  | [], _ => .ok false
  | sap :: rest, key => do
      let v ← dictGet sap "sap-id"
      if jsonEqStr v key then pure true else sapSearchList rest key

/-- Python iteration over observed_saps in check_for_drift: a list iterates
its elements; a string iterates its characters and a dict its keys (each a
string, so the first sap.get raises AttributeError); numbers and None are
not iterable (TypeError). -/
def sapSearch (saps : Json) (key : String) : Except PyError Bool :=
  match saps with
  | .arr l => sapSearchList l key
  | .str s => if s.isEmpty then .ok false else .error .attributeError
  | .obj fields => if fields.isEmpty then .ok false else .error .attributeError
  | .num _ => .error .typeError
  | .null => .error .typeError

/-- gNMIClient.check_for_drift. The json.loads fallback in the source is a
dead string literal (disabled code), so the observed value is consumed
directly with .get calls: a non-dict observed value raises AttributeError.
The desired_spec parameter of the source is unused there and omitted. -/
def check_for_drift (e : EndpointSpec) (s : SliceSpec) (observed : Json) :
    Except PyError Bool := do
  let observedDescription ← dictGet observed "nokia-conf:description"
  let drift1 : Bool := !jsonEqStr observedDescription (descriptionOf s)
  let observedAdminState ← dictGet observed "nokia-conf:admin-state"
  let drift2 : Bool := !jsonEqStr observedAdminState (adminStateOf s)
  let desiredSap := optStr e.interfaceName ++ ":" ++ optIntStr e.vlanID
  let observedSaps ← dictGetD observed "nokia-conf:sap" (Json.arr [])
  let sapFound ← sapSearch observedSaps desiredSap
  pure (drift1 || drift2 || !sapFound)

/-- The subscript chain of gNMIClient.get_operational_status:
response["notification"][0]["update"][0]["val"]["nokia-state:oper-state"]. -/
def operStateChain (response : Json) : Except PyError Json := do
  let n ← subscriptStr response "notification"
  let n0 ← subscriptNat n 0
  let u ← subscriptStr n0 "update"
  let u0 ← subscriptNat u 0
  let v ← subscriptStr u0 "val"
  subscriptStr v "nokia-state:oper-state"

/-- The try-block body of get_operational_status: the subscript chain
followed by .upper(). -/
def operStateRead (response : Json) : Except PyError String :=
  operStateChain response >>= pyUpperStr

/-- gNMIClient.get_operational_status, given the gNMI Get response: the
oper-state upper-cased, "UNKNOWN" when the chain (or .upper) raises
IndexError or KeyError, any other exception propagates. -/
def get_operational_status (response : Json) : Except PyError String :=
  match operStateRead response with
  | .ok s => .ok s
  | .error .indexError => .ok "UNKNOWN"
  | .error .keyError => .ok "UNKNOWN"
  | .error e => .error e

/-- Python truthiness of endpoint.get('routerName'): false for a missing
key (None) and for the empty string. -/
def truthyName : Option String → Bool
  | some s => !s.isEmpty
  | none => false

/-- Assignment d[k] = v on a dict rendered as an association list: an
existing binding is overwritten in place, a new key is appended. -/
def dictSet (d : List (Option String × String)) (k : Option String) (v : String) :
    List (Option String × String) :=
  if d.any (fun p => p.1 = k) then
    d.map (fun p => if p.1 = k then (k, v) else p)
  else
    d ++ [(k, v)]

/-- One gNMIClient invocation the controller makes: the arguments of
gNMIClient(router_name, endpoint, slice_spec, logger) whose operation
(apply_config or delete_config) is then attempted. The controller
functions return the list of these calls alongside the status, so that
"no device contact" is an observable fact of the embedding. -/
structure ApplyCall where
  routerName : Option String
  endpoint : EndpointSpec
  slice : SliceSpec
deriving Repr, DecidableEq

/-- The status dict provision_or_update_slice returns: serviceType and
provisionedEndpoints are `none` exactly when the source's dict omits the
ServiceType / ProvisionedEndpoints keys. -/
structure ProvisionStatus where
  status : String
  serviceType : Option String
  message : String
  provisionedEndpoints : Option (List (Option String × String))
deriving Repr, DecidableEq

/-- Status returned for an invalid or missing serviceType. -/
def invalidTypeStatus (st : Option String) : ProvisionStatus :=
  { status := "Error", serviceType := none,
    message := "Invalid or missing serviceType in spec. Must be VPLS, VPRN, or ePipe. Found: " ++ optStr st,
    provisionedEndpoints := none }

/-- Status returned when an ePipe slice does not have exactly two endpoints. -/
def epipeCountStatus (n : Nat) : ProvisionStatus :=
  { status := "Error", serviceType := none,
    message := "ePipe service requires exactly two endpoints. Found: " ++ toString n,
    provisionedEndpoints := none }

/-- Status returned by the shared success exit of provision_or_update_slice
(the wall-clock timestamp in the message is elided). -/
def readyStatus (st : String) (acc : List (Option String × String)) : ProvisionStatus :=
  { status := "Ready", serviceType := some st,
    message := "Initial provisioning complete",
    provisionedEndpoints := some acc }

/-- Status returned on the first failing work item of
provision_or_update_slice. -/
def provisionErrorStatus (st : String) (rn : Option String) (msg : String)
    (acc : List (Option String × String)) : ProvisionStatus :=
  { status := "Error", serviceType := none,
    message := "Error during provisioning for " ++ st ++ " on " ++ optStr rn ++ ": " ++ msg,
    provisionedEndpoints := some acc }

/-- The ePipe loop of provision_or_update_slice over endpoints_to_process:
for each (local, remote) pair the slice spec is copied with
remote_sdpId = remote.get('sdpId') and apply_config is attempted; the first
failure records that router as Error and returns the partial status.
The `apply` oracle stands for gNMIClient(...).apply_config() (credential
lookup in the constructor is not modelled: an exception there would escape
the handler uncaught and no claim concerns it). -/
def runEpipePairs (apply : Option String → EndpointSpec → SliceSpec → Except String Unit)
    (spec : SliceSpec) (st : String) :
    List (EndpointSpec × EndpointSpec) → List (Option String × String) → List ApplyCall →
    ProvisionStatus × List ApplyCall
  | [], acc, calls => (readyStatus st acc, calls)
  | (lep, rep) :: rest, acc, calls =>
      let rn := lep.routerName
      let espec := { spec with remoteSdpId := rep.sdpId }
      let calls := calls ++ [⟨rn, lep, espec⟩]
      match apply rn lep espec with
      | .ok _ => runEpipePairs apply spec st rest (dictSet acc rn (st ++ " Provisioned")) calls
      | .error msg =>
          (provisionErrorStatus st rn msg (dictSet acc rn ("Error: " ++ msg)), calls)

/-- The VPLS/VPRN loop of provision_or_update_slice: endpoints without a
truthy routerName are skipped; the first apply_config failure records that
router as Error and returns the partial status. -/
def runEndpoints (apply : Option String → EndpointSpec → SliceSpec → Except String Unit)
    (spec : SliceSpec) (st : String) :
    List EndpointSpec → List (Option String × String) → List ApplyCall →
    ProvisionStatus × List ApplyCall
  | [], acc, calls => (readyStatus st acc, calls)
  | e :: rest, acc, calls =>
      if truthyName e.routerName then
        let rn := e.routerName
        let calls := calls ++ [⟨rn, e, spec⟩]
        match apply rn e spec with
        | .ok _ => runEndpoints apply spec st rest (dictSet acc rn (st ++ " Provisioned")) calls
        | .error msg =>
            (provisionErrorStatus st rn msg (dictSet acc rn ("Error: " ++ msg)), calls)
      else
        runEndpoints apply spec st rest acc calls

/-- controller_v1.provision_or_update_slice: validation of serviceType, the
ePipe two-endpoint check and pairing, then the per-endpoint enforcement
loops; also returns the trace of gNMIClient operations attempted. -/
def provision_or_update_slice
    (apply : Option String → EndpointSpec → SliceSpec → Except String Unit)
    (spec : SliceSpec) : ProvisionStatus × List ApplyCall :=
  match spec.serviceType with
  | none => (invalidTypeStatus none, [])
  | some st =>
      if st = "VPLS" ∨ st = "VPRN" ∨ st = "ePipe" then
        if st = "ePipe" then
          match spec.endpoints with
          | [e0, e1] => runEpipePairs apply spec st [(e0, e1), (e1, e0)] [] []
          | eps => (epipeCountStatus eps.length, [])
        else
          runEndpoints apply spec st spec.endpoints [] []
      else
        (invalidTypeStatus (some st), [])

/-- The device-side behaviour one endpoint exhibits during a periodic
check: what get_config yields (or raises), whether apply_config succeeds,
and what get_operational_status yields (or raises). Errors carry str(e). -/
structure DeviceBehavior where
  getConfigResult : Except String Json
  applyResult : Except String Unit
  operStatusResult : Except String String

/-- Printable message of an embedded Python exception (the class name; the
source interpolates str(e), whose exact text is abbreviated here). -/
def pyErrMsg : PyError → String
  | .keyError => "KeyError"
  | .indexError => "IndexError"
  | .typeError => "TypeError"
  | .attributeError => "AttributeError"

/-- The try-block body of one drift_detection_check iteration: fetch the
observed config, run check_for_drift, re-apply on drift, then fetch the
operational status; yields the per-router label and the op status, or the
first exception's message. -/
def driftAttempt (d : DeviceBehavior) (e : EndpointSpec) (spec : SliceSpec) (st : String) :
    Except String (String × String) := do
  let observed ← d.getConfigResult
  let isDrift ← (check_for_drift e spec observed).mapError pyErrMsg
  if isDrift then
    let _ ← d.applyResult
    let op ← d.operStatusResult
    pure (st ++ " Reconciled", op)
  else
    let op ← d.operStatusResult
    pure (st ++ " InSync", op)

/-- The endpoint loop of drift_detection_check: accumulates the per-router
labels and folds the overall operational status ("DOWN" on a non-UP
reading, "ERROR" on an exception, each write overwriting the previous
value). -/
def driftLoop (dev : EndpointSpec → DeviceBehavior) (spec : SliceSpec) (st : String) :
    List EndpointSpec → List (Option String × String) → String →
    List (Option String × String) × String
  | [], acc, overall => (acc, overall)
  | e :: rest, acc, overall =>
      if truthyName e.routerName then
        match driftAttempt (dev e) e spec st with
        | .ok (label, op) =>
            let acc := dictSet acc e.routerName label
            let overall := if op ≠ "UP" then "DOWN" else overall
            driftLoop dev spec st rest acc overall
        | .error msg =>
            driftLoop dev spec st rest
              (dictSet acc e.routerName ("Error during drift check: " ++ msg)) "ERROR"
      else
        driftLoop dev spec st rest acc overall

/-- The status patch drift_detection_check queues (timestamp elided). -/
structure DriftStatus where
  status : String
  operationalStatus : String
  message : String
  provisionedEndpoints : List (Option String × String)
deriving Repr, DecidableEq

/-- controller_v1.drift_detection_check, with the per-endpoint device
behaviour supplied by the `dev` oracle. -/
def drift_detection_check (dev : EndpointSpec → DeviceBehavior) (spec : SliceSpec) :
    DriftStatus :=
  let st := optStr spec.serviceType
  let r := driftLoop dev spec st spec.endpoints [] "UP"
  { status := if r.2 ≠ "ERROR" then "Ready" else "Error",
    operationalStatus := r.2,
    message := "Periodic drift check completed. Status: " ++ r.2,
    provisionedEndpoints := r.1 }

/-- The endpoint loop of cleanup_network_slice: endpoints without a truthy
routerName are skipped silently; a failing delete_config (or a failing
client constructor, both inside the try) clears the success flag and the
loop continues. -/
def cleanupLoop (del : Option String → EndpointSpec → SliceSpec → Except String Unit)
    (spec : SliceSpec) :
    List EndpointSpec → Bool → List ApplyCall → Bool × List ApplyCall
  | [], success, calls => (success, calls)
  | e :: rest, success, calls =>
      if truthyName e.routerName then
        let calls := calls ++ [⟨e.routerName, e, spec⟩]
        match del e.routerName e spec with
        | .ok _ => cleanupLoop del spec rest success calls
        | .error _ => cleanupLoop del spec rest false calls
      else
        cleanupLoop del spec rest success calls

/-- controller_v1.cleanup_network_slice: best-effort de-provisioning over
every endpoint with a router name; returns the (success, message) pair of
the source plus the trace of delete attempts. -/
def cleanup_network_slice
    (del : Option String → EndpointSpec → SliceSpec → Except String Unit)
    (spec : SliceSpec) : (Bool × String) × List ApplyCall :=
  let st := spec.serviceType.getD "Unknown"
  let r := cleanupLoop del spec spec.endpoints true []
  (if r.1 then
    (true, st ++ " service successfully de-provisioned.")
  else
    (false, "Cleanup of " ++ st ++ " completed with errors on some devices."), r.2)

/-- Whether one element of an observed SAP list is a dict (so that
sap.get("sap-id") does not raise). -/
def sapEntryIsDict : Json → Bool
  | .obj _ => true
  | _ => false

/-- Shape of the nokia-conf:sap binding under which check_for_drift cannot
raise while scanning the SAP list: the key is absent, or bound to an array
whose elements are all dicts. -/
def sapFieldWellFormed (fields : List (String × Json)) : Bool :=
  match lookupField fields "nokia-conf:sap" with
  | none => true
  | some (.arr l) => l.all sapEntryIsDict
  | some _ => false

/-- The observed SAP list of a structured document (empty when the key is
absent). -/
def observedSapList (fields : List (String × Json)) : List Json :=
  match lookupField fields "nokia-conf:sap" with
  | some (.arr l) => l
  | _ => []

/-- Whether one observed SAP entry carries the desired sap-id. -/
def sapIdMatches (key : String) : Json → Bool
  | .obj fields => jsonEqStr ((lookupField fields "sap-id").getD .null) key
  | _ => false

/-- How one endpoint of a periodic pass is classified for the operational
aggregation: `errored` when its try-block raises, `nonUp` when it completes
with an operational status other than "UP", `none` when it is skipped (no
truthy router name) or healthy. -/
inductive DriftEvent where
  | errored
  | nonUp
deriving Repr, DecidableEq

/-- Classification of one endpoint of drift_detection_check. -/
def endpointDriftEvent (dev : EndpointSpec → DeviceBehavior) (spec : SliceSpec) (st : String)
    (e : EndpointSpec) : Option DriftEvent :=
  if truthyName e.routerName then
    match driftAttempt (dev e) e spec st with
    | .error _ => some .errored
    | .ok (_, op) => if op ≠ "UP" then some .nonUp else none
  else none

/-- The overall-status write one abnormal endpoint performs. -/
def eventStatus : DriftEvent → String
  | .errored => "ERROR"
  | .nonUp => "DOWN"

/-- Folding the abnormal-endpoint events into the overall operational
status, starting from a current value. -/
def foldOverall (overall : String) : List DriftEvent → String
  | [] => overall
  | ev :: rest => foldOverall (eventStatus ev) rest

/-- Whether an embedded operation completed without an exception. -/
def isOkU : Except String Unit → Bool
  | .ok _ => true
  | .error _ => false

/-- Lift of a device-function result into the str(e) view the controller
records (the exception class name stands for str(e)). -/
def liftOper (r : Except PyError String) : Except String String :=
  r.mapError pyErrMsg

/-- Endpoint of the worked VPLS example: routerName SR1, interface 1/1/1,
vlan 10. -/
def ep9 : EndpointSpec :=
  { routerName := some "SR1", interfaceName := some "1/1/1", vlanID := some 10 }

/-- Intent of the worked VPLS example: serviceType VPLS, serviceId 100, one
endpoint. -/
def spec9 : SliceSpec :=
  { serviceType := some "VPLS", serviceId := some "100", endpoints := [ep9] }

/-- First ePipe endpoint: router SR1, own sdpId 111. -/
def epipeEndpointA : EndpointSpec :=
  { routerName := some "SR1", interfaceName := some "1/1/1", vlanID := some 10, sdpId := some 111 }

/-- Second ePipe endpoint: router SR2, own sdpId 222. -/
def epipeEndpointB : EndpointSpec :=
  { routerName := some "SR2", interfaceName := some "2/2/2", vlanID := some 20, sdpId := some 222 }

/-- An ePipe intent with two endpoints whose sdpIds differ. -/
def epipeIntent : SliceSpec :=
  { serviceType := some "ePipe", serviceId := some "7",
    endpoints := [epipeEndpointA, epipeEndpointB] }

/-- An ePipe intent with a single endpoint (wrong endpoint count). -/
def epipeShortIntent : SliceSpec :=
  { serviceType := some "ePipe", serviceId := some "7", endpoints := [epipeEndpointA] }

/-- A gNMI Get response carrying no configuration: the first notification
is an empty dict, so get_config falls back to the raw string. -/
def emptyGetResponse : Json := .obj [("notification", .arr [.obj []])]

/-- An intent whose serviceType is not one of VPLS, VPRN, ePipe. -/
def mplsIntent : SliceSpec :=
  { serviceType := some "MPLS", serviceId := some "1", endpoints := [ep9] }

/-- A device oracle on which every operation succeeds. -/
def applyAlwaysOk : Option String → EndpointSpec → SliceSpec → Except String Unit :=
  fun _ _ _ => .ok ()

/-- Endpoint A of the fail-fast scenario (router R1, succeeds). -/
def epVA : EndpointSpec :=
  { routerName := some "R1", interfaceName := some "1/1/1", vlanID := some 10 }

/-- Endpoint B of the fail-fast scenario (router R2, fails). -/
def epVB : EndpointSpec :=
  { routerName := some "R2", interfaceName := some "1/1/2", vlanID := some 10 }

/-- Endpoint C of the fail-fast scenario (router R3, never reached). -/
def epVC : EndpointSpec :=
  { routerName := some "R3", interfaceName := some "1/1/3", vlanID := some 10 }

/-- A VPLS intent over the three fail-fast endpoints. -/
def failSecondIntent : SliceSpec :=
  { serviceType := some "VPLS", serviceId := some "100", endpoints := [epVA, epVB, epVC] }

/-- A device oracle that fails exactly on router R2. -/
def applyFailR2 : Option String → EndpointSpec → SliceSpec → Except String Unit :=
  fun rn _ _ => if rn = some "R2" then .error "boom" else .ok ()

/-- Endpoint on router R1 of the periodic-pass scenarios. -/
def epR1 : EndpointSpec :=
  { routerName := some "R1", interfaceName := some "1/1/1", vlanID := some 10 }

/-- Endpoint on router R2 of the periodic-pass scenarios. -/
def epR2 : EndpointSpec :=
  { routerName := some "R2", interfaceName := some "1/1/1", vlanID := some 10 }

/-- A VPLS intent with description d over routers R1 and R2. -/
def driftIntent : SliceSpec :=
  { serviceType := some "VPLS", serviceId := some "100", description := some "d",
    endpoints := [epR1, epR2] }

/-- An observed document that matches driftIntent on description,
admin-state and the desired SAP. -/
def driftObservedFields : List (String × Json) :=
  [("nokia-conf:description", .str "d"),
   ("nokia-conf:admin-state", .str "enable"),
   ("nokia-conf:sap", .arr [.obj [("sap-id", .str "1/1/1:10")]])]

/-- Device behaviour for the order-sensitivity scenario: R1 raises during
get_config, R2 is in sync but reports oper-state DOWN. -/
def devErrorThenDown : EndpointSpec → DeviceBehavior := fun e =>
  if e.routerName = some "R1" then
    { getConfigResult := .error "boom", applyResult := .ok (), operStatusResult := .ok "UP" }
  else
    { getConfigResult := .ok (.obj driftObservedFields), applyResult := .ok (),
      operStatusResult := .ok "DOWN" }

/-- A state response whose val is present but is a raw string, not a dict:
subscripting it with the oper-state key raises TypeError in Python. -/
def malformedOperResponse : Json :=
  .obj [("notification", .arr [.obj [("update", .arr [.obj [("val", .str "up")]])]])]

/-- A single-endpoint VPLS intent for the operational-status scenarios. -/
def operIntent : SliceSpec :=
  { serviceType := some "VPLS", serviceId := some "100", description := some "d",
    endpoints := [epR1] }

/-- Device behaviour whose state query yields the malformed response: the
in-sync endpoint then raises TypeError while reading oper-state. -/
def devOperTypeRaise : EndpointSpec → DeviceBehavior := fun _ =>
  { getConfigResult := .ok (.obj driftObservedFields), applyResult := .ok (),
    operStatusResult := liftOper (get_operational_status malformedOperResponse) }

/-- Device behaviour whose state query yields an empty dict: the in-sync
endpoint then reads oper-state UNKNOWN. -/
def devOperUnknown : EndpointSpec → DeviceBehavior := fun _ =>
  { getConfigResult := .ok (.obj driftObservedFields), applyResult := .ok (),
    operStatusResult := liftOper (get_operational_status (.obj [])) }

theorem jsonEqStr_true_iff (v : Json) (t : String) : jsonEqStr v t = true ↔ v = .str t := by
  cases v <;> simp [jsonEqStr]

theorem isOkU_eq_true (r : Except String Unit) : isOkU r = true ↔ r = .ok () := by
  cases r with
  | ok u => cases u; simp [isOkU]
  | error msg => simp [isOkU]

theorem dictSet_fresh (d : List (Option String × String)) (k : Option String) (v : String)
    (h : ∀ p ∈ d, p.1 ≠ k) : dictSet d k v = d ++ [(k, v)] := by
  have hc : ¬((d.any fun p => decide (p.1 = k)) = true) := by
    simp only [List.any_eq_true, decide_eq_true_eq, not_exists, not_and]
    exact fun p hp => h p hp
  unfold dictSet
  rw [if_neg hc]

theorem cleanupLoop_eq (del : Option String → EndpointSpec → SliceSpec → Except String Unit)
    (spec : SliceSpec) :
    ∀ (l : List EndpointSpec) (s : Bool) (c : List ApplyCall),
    cleanupLoop del spec l s c =
      (s && ((l.filter fun e => truthyName e.routerName).all
               fun e => isOkU (del e.routerName e spec)),
       c ++ (l.filter fun e => truthyName e.routerName).map fun e => ⟨e.routerName, e, spec⟩) := by
  intro l
  induction l with
  | nil => intro s c; simp [cleanupLoop]
  | cons e rest ih =>
      intro s c
      by_cases he : truthyName e.routerName
      · cases hdel : del e.routerName e spec with
        | ok u =>
            cases u
            simp [cleanupLoop, he, hdel, ih, isOkU, List.filter_cons]
        | error msg =>
            simp [cleanupLoop, he, hdel, ih, isOkU, List.filter_cons]
      · simp [cleanupLoop, he, List.filter_cons, ih]

theorem driftLoop_snd (dev : EndpointSpec → DeviceBehavior) (spec : SliceSpec) (st : String) :
    ∀ (l : List EndpointSpec) (acc : List (Option String × String)) (overall : String),
    (driftLoop dev spec st l acc overall).2 =
      foldOverall overall (l.filterMap (endpointDriftEvent dev spec st)) := by
  intro l
  induction l with
  | nil => intro acc overall; simp [driftLoop, foldOverall]
  | cons e rest ih =>
      intro acc overall
      by_cases he : truthyName e.routerName
      · cases hA : driftAttempt (dev e) e spec st with
        | ok p =>
            obtain ⟨label, op⟩ := p
            by_cases hop : op = "UP"
            · subst hop
              simp [driftLoop, he, hA, endpointDriftEvent, List.filterMap_cons, ih]
            · simp [driftLoop, he, hA, hop, endpointDriftEvent, List.filterMap_cons, ih,
                    foldOverall, eventStatus]
        | error msg =>
            simp [driftLoop, he, hA, endpointDriftEvent, List.filterMap_cons, ih,
                  foldOverall, eventStatus]
      · simp [driftLoop, he, endpointDriftEvent, List.filterMap_cons, ih]

theorem foldOverall_eq_getLast (l : List DriftEvent) : ∀ overall : String,
    foldOverall overall l =
      (match l.getLast? with
       | some ev => eventStatus ev
       | none => overall) := by
  induction l with
  | nil => intro overall; simp [foldOverall]
  | cons ev rest ih =>
      intro overall
      cases rest with
      | nil => simp [foldOverall]
      | cons ev2 rest2 =>
          rw [foldOverall, ih]
          cases h : (ev2 :: rest2).getLast? with
          | none => rw [List.getLast?_eq_none_iff] at h; simp at h
          | some x => simp [h]

theorem sapSearchList_eq_any (key : String) :
    ∀ l : List Json, l.all sapEntryIsDict = true →
    sapSearchList l key = .ok (l.any (sapIdMatches key)) := by
  intro l
  induction l with
  | nil => intro _; simp [sapSearchList]
  | cons sap rest ih =>
      intro h
      rw [List.all_cons, Bool.and_eq_true] at h
      obtain ⟨h1, h2⟩ := h
      cases sap with
      | obj fields =>
          by_cases hm : jsonEqStr ((lookupField fields "sap-id").getD .null) key
          · simp [sapSearchList, dictGet, hm, List.any_cons, sapIdMatches,
                  Bind.bind, Except.bind, Pure.pure, Except.pure]
          · simp [sapSearchList, dictGet, hm, List.any_cons, sapIdMatches, ih h2,
                  Bind.bind, Except.bind, Pure.pure, Except.pure]
      | null => simp [sapEntryIsDict] at h1
      | str s => simp [sapEntryIsDict] at h1
      | num n => simp [sapEntryIsDict] at h1
      | arr l2 => simp [sapEntryIsDict] at h1

theorem runEndpoints_fail (apply : Option String → EndpointSpec → SliceSpec → Except String Unit)
    (spec : SliceSpec) (st : String) (bad : EndpointSpec) (rest : List EndpointSpec)
    (msg : String)
    (hbn : truthyName bad.routerName = true)
    (hbad : apply bad.routerName bad spec = .error msg) :
    ∀ (good : List EndpointSpec) (acc : List (Option String × String)) (calls : List ApplyCall),
    (∀ e ∈ good, truthyName e.routerName = true) →
    (∀ e ∈ good, apply e.routerName e spec = .ok ()) →
    (∀ e ∈ good ++ [bad], ∀ p ∈ acc, p.1 ≠ e.routerName) →
    List.Pairwise (fun a b => a.routerName ≠ b.routerName) (good ++ [bad]) →
    runEndpoints apply spec st (good ++ bad :: rest) acc calls =
      (provisionErrorStatus st bad.routerName msg
         (acc ++ good.map (fun e => (e.routerName, st ++ " Provisioned"))
              ++ [(bad.routerName, "Error: " ++ msg)]),
       calls ++ (good ++ [bad]).map fun e => ⟨e.routerName, e, spec⟩) := by
  intro good
  induction good with
  | nil =>
      intro acc calls _ _ hfresh _
      have hf : ∀ p ∈ acc, p.1 ≠ bad.routerName := fun p hp => hfresh bad (by simp) p hp
      simp [runEndpoints, hbn, hbad, dictSet_fresh acc bad.routerName _ hf]
  | cons e good ih =>
      intro acc calls hname hok hfresh hpair
      have hen : truthyName e.routerName = true := hname e (by simp)
      have heok : apply e.routerName e spec = .ok () := hok e (by simp)
      have hfe : ∀ p ∈ acc, p.1 ≠ e.routerName := fun p hp => hfresh e (by simp) p hp
      rw [List.cons_append] at hpair ⊢
      rw [List.pairwise_cons] at hpair
      have h1 : ∀ x ∈ good, truthyName x.routerName = true :=
        fun x hx => hname x (List.mem_cons_of_mem e hx)
      have h2 : ∀ x ∈ good, apply x.routerName x spec = .ok () :=
        fun x hx => hok x (List.mem_cons_of_mem e hx)
      have h3 : ∀ x ∈ good ++ [bad],
          ∀ p ∈ acc ++ [(e.routerName, st ++ " Provisioned")], p.1 ≠ x.routerName := by
        intro x hx p hp
        rcases List.mem_append.mp hp with hpa | hpe
        · exact hfresh x (List.mem_cons_of_mem e hx) p hpa
        · have hpe2 : p = (e.routerName, st ++ " Provisioned") := by simpa using hpe
          rw [hpe2]
          exact hpair.1 x hx
      have step : runEndpoints apply spec st (e :: (good ++ bad :: rest)) acc calls =
            runEndpoints apply spec st (good ++ bad :: rest)
              (acc ++ [(e.routerName, st ++ " Provisioned")])
              (calls ++ [⟨e.routerName, e, spec⟩]) := by
        simp [runEndpoints, hen, heok, dictSet_fresh acc e.routerName _ hfe]
      have ih2 := ih (acc ++ [(e.routerName, st ++ " Provisioned")])
          (calls ++ [⟨e.routerName, e, spec⟩]) h1 h2 h3 hpair.2
      rw [step, ih2]
      simp [List.append_assoc, List.map_cons, List.cons_append]

/-- C9: for the intent with serviceType VPLS, serviceId 100 and the single
endpoint (routerName SR1, interfaceName 1/1/1, vlanId 10), payload rendering
yields exactly one document, at path
/configure/service/vpls[service-name=VPLS_100], whose sap list holds the
single entry (sap-id 1/1/1:10, admin-state enable) and whose mesh-sdp entry
has sdp-bind-id 1000:100. -/
theorem vpls_example_end_to_end :
    get_vpls_payload ep9 spec9 =
      [("/configure/service/vpls[service-name=VPLS_100]",
        Json.obj [("admin-state", .str "enable"),
                  ("description", .str "Service VPLS 100"),
                  ("customer", .str "1"),
                  ("service-id", .str "100"),
                  ("mesh-sdp", .arr [.obj [("sdp-bind-id", .str "1000:100")]]),
                  ("sap", .arr [.obj [("sap-id", .str "1/1/1:10"),
                                      ("admin-state", .str "enable")]])])] := rfl

/-- C1: the rendered ePipe document does NOT encode the paired endpoint's
SDP id. For the two-endpoint ePipe intent with sdpIds 111 and 222, the
document rendered for endpoint A (own sdpId 111, paired remote sdpId 222)
carries spoke-sdp bind id 111:7 — the LOCAL endpoint's own sdpId — and the
remote_sdpId entry placed in the slice spec by the controller is ignored by
the renderer (the payload is the same for every remoteSdpId value). -/
theorem epipe_bind_id_is_local :
    (∀ r : Option Int,
      get_epipe_payload epipeEndpointA { epipeIntent with remoteSdpId := r } =
        get_epipe_payload epipeEndpointA epipeIntent)
    ∧ get_epipe_payload epipeEndpointA { epipeIntent with remoteSdpId := epipeEndpointB.sdpId } =
        [("/configure/service/epipe[service-name=ePipe_7]",
          Json.obj [("admin-state", .str "enable"),
                    ("description", .str "Service ePipe 7"),
                    ("customer", .str "1"),
                    ("service-id", .str "7"),
                    ("sap", .arr [.obj [("sap-id", .str "1/1/1:10")]]),
                    ("spoke-sdp", .obj [("sdp-bind-id", .str "111:7")])])]
    ∧ ("111:7" : String) ≠ "222:7" :=
  ⟨fun _ => rfl, rfl, by decide⟩

/-- C3: when no configuration is found, get_config returns the raw two-byte
string of an empty JSON object, and check_for_drift then raises
AttributeError on it (its string-decoding fallback is disabled in the
source) instead of reporting assumed drift. -/
theorem drift_check_raises_on_empty_observed :
    get_config emptyGetResponse = .ok (.str "\x7b\x7d")
    ∧ check_for_drift epR1 driftIntent (.str "\x7b\x7d") = .error .attributeError :=
  ⟨rfl, rfl⟩

/-- C2 counterexample: with endpoint R1 raising during the check and the
later endpoint R2 healthy-but-DOWN, the aggregated operationalStatus ends
DOWN (and the phase Ready), not ERROR: the later non-UP reading overwrites
the earlier ERROR, so ERROR does not override DOWN regardless of order. -/
theorem drift_error_then_down :
    drift_detection_check devErrorThenDown driftIntent =
      { status := "Ready", operationalStatus := "DOWN",
        message := "Periodic drift check completed. Status: DOWN",
        provisionedEndpoints := [(some "R1", "Error during drift check: boom"),
                                 (some "R2", "VPLS InSync")] }
    ∧ ("DOWN" : String) ≠ "ERROR" :=
  ⟨rfl, by decide⟩

/-- C2 amended: the aggregated operationalStatus is UP only if every
processed endpoint completes its check and reports UP; otherwise it equals
the write of the LAST abnormal endpoint in processing order — ERROR when
that endpoint raised, DOWN when it reported non-UP. ERROR therefore
overrides DOWN only when no later endpoint reports non-UP after the last
error. -/
theorem drift_overall_last_abnormal (dev : EndpointSpec → DeviceBehavior) (spec : SliceSpec) :
    (drift_detection_check dev spec).operationalStatus =
      (match (spec.endpoints.filterMap
          (endpointDriftEvent dev spec (optStr spec.serviceType))).getLast? with
       | some ev => eventStatus ev
       | none => "UP") := by
  show (driftLoop dev spec (optStr spec.serviceType) spec.endpoints [] "UP").2 = _
  rw [driftLoop_snd, foldOverall_eq_getLast]

/-- C4: for every intent whose serviceType is absent or outside the set
(VPLS, VPRN, ePipe), the create/update pass returns an Error status
immediately and the device-call trace is empty (zero device contact),
whatever the device would have answered. -/
theorem invalid_service_type_short_circuits
    (apply : Option String → EndpointSpec → SliceSpec → Except String Unit)
    (spec : SliceSpec)
    (h1 : spec.serviceType ≠ some "VPLS") (h2 : spec.serviceType ≠ some "VPRN")
    (h3 : spec.serviceType ≠ some "ePipe") :
    (provision_or_update_slice apply spec).1.status = "Error"
    ∧ (provision_or_update_slice apply spec).2 = [] := by
  unfold provision_or_update_slice
  cases hst : spec.serviceType with
  | none => exact ⟨rfl, rfl⟩
  | some st =>
      rw [hst] at h1 h2 h3
      have hcond : ¬(st = "VPLS" ∨ st = "VPRN" ∨ st = "ePipe") := by
        rintro (rfl | rfl | rfl)
        · exact h1 rfl
        · exact h2 rfl
        · exact h3 rfl
      simp [hcond, invalidTypeStatus]

/-- C4 witness: the MPLS intent is rejected with an Error status and an
empty device-call trace. -/
theorem invalid_service_type_short_circuits_witness :
    (provision_or_update_slice applyAlwaysOk mplsIntent).1.status = "Error"
    ∧ (provision_or_update_slice applyAlwaysOk mplsIntent).2 = [] :=
  invalid_service_type_short_circuits applyAlwaysOk mplsIntent
    (by decide) (by decide) (by decide)

/-- Dispatch of provision_or_update_slice once the serviceType is known. -/
theorem provision_some
    (apply : Option String → EndpointSpec → SliceSpec → Except String Unit)
    (spec : SliceSpec) (st : String) (hst : spec.serviceType = some st) :
    provision_or_update_slice apply spec =
      if st = "VPLS" ∨ st = "VPRN" ∨ st = "ePipe" then
        if st = "ePipe" then
          match spec.endpoints with
          | [e0, e1] => runEpipePairs apply spec st [(e0, e1), (e1, e0)] [] []
          | eps => (epipeCountStatus eps.length, [])
        else
          runEndpoints apply spec st spec.endpoints [] []
      else
        (invalidTypeStatus (some st), []) := by
  unfold provision_or_update_slice
  rw [hst]

/-- C5: an ePipe intent with an endpoint count other than 2 fails validation
with an Error status and an empty device-call trace; with exactly two
endpoints the pass performs exactly two work items, pairing endpoint 0 with
endpoint 1 symmetrically, the slice spec of each call carrying as
remote_sdpId the OTHER endpoint's sdpId. -/
theorem epipe_pairing
    (apply : Option String → EndpointSpec → SliceSpec → Except String Unit)
    (spec : SliceSpec) (h : spec.serviceType = some "ePipe") :
    (spec.endpoints.length ≠ 2 →
      (provision_or_update_slice apply spec).1.status = "Error"
      ∧ (provision_or_update_slice apply spec).2 = [])
    ∧ (∀ e0 e1, spec.endpoints = [e0, e1] →
        (∀ rn e es, apply rn e es = .ok ()) →
        (provision_or_update_slice apply spec).2 =
          [⟨e0.routerName, e0, { spec with remoteSdpId := e1.sdpId }⟩,
           ⟨e1.routerName, e1, { spec with remoteSdpId := e0.sdpId }⟩]) := by
  constructor
  · intro hlen
    rw [provision_some apply spec "ePipe" h]
    rcases hep : spec.endpoints with _ | ⟨a, _ | ⟨b, _ | ⟨c, tail⟩⟩⟩
    · exact ⟨rfl, rfl⟩
    · exact ⟨rfl, rfl⟩
    · exact absurd (by rw [hep]; rfl) hlen
    · exact ⟨rfl, rfl⟩
  · intro e0 e1 hep hap
    have hps := provision_some apply spec "ePipe" h
    rw [hep] at hps
    rw [hps, if_pos (Or.inr (Or.inr rfl)), if_pos rfl]
    simp [runEpipePairs, hap, dictSet]

/-- C5 witness: the one-endpoint ePipe intent errors with no device call; the
two-endpoint ePipe intent makes exactly the two crossed work-item calls. -/
theorem epipe_pairing_witness :
    ((provision_or_update_slice applyAlwaysOk epipeShortIntent).1.status = "Error"
      ∧ (provision_or_update_slice applyAlwaysOk epipeShortIntent).2 = [])
    ∧ (provision_or_update_slice applyAlwaysOk epipeIntent).2 =
        [⟨some "SR1", epipeEndpointA, { epipeIntent with remoteSdpId := some 222 }⟩,
         ⟨some "SR2", epipeEndpointB, { epipeIntent with remoteSdpId := some 111 }⟩] :=
  ⟨(epipe_pairing applyAlwaysOk epipeShortIntent rfl).1 (by decide),
   (epipe_pairing applyAlwaysOk epipeIntent rfl).2 epipeEndpointA epipeEndpointB rfl
     (fun _ _ _ => rfl)⟩

/-- C6: the create/update pass is fail-fast. For a VPLS or VPRN intent whose
endpoint sequence splits as good ++ bad :: rest — every endpoint of good
named and succeeding, bad named and failing, router names pairwise distinct
— the pass returns an Error status, records the good routers as Provisioned
and the failing router as Error, and the device-call trace covers exactly
good and bad: the endpoints of rest are never contacted and are absent from
the result. -/
theorem provision_fail_fast
    (apply : Option String → EndpointSpec → SliceSpec → Except String Unit)
    (spec : SliceSpec) (st : String)
    (good : List EndpointSpec) (bad : EndpointSpec) (rest : List EndpointSpec) (msg : String)
    (hst : spec.serviceType = some st)
    (hvp : st = "VPLS" ∨ st = "VPRN")
    (heps : spec.endpoints = good ++ bad :: rest)
    (hgoodname : ∀ e ∈ good, truthyName e.routerName = true)
    (hgoodok : ∀ e ∈ good, apply e.routerName e spec = .ok ())
    (hbadname : truthyName bad.routerName = true)
    (hbad : apply bad.routerName bad spec = .error msg)
    (hpair : List.Pairwise (fun a b => a.routerName ≠ b.routerName) (good ++ [bad])) :
    (provision_or_update_slice apply spec).1.status = "Error"
    ∧ (provision_or_update_slice apply spec).1.provisionedEndpoints =
        some (good.map (fun e => (e.routerName, st ++ " Provisioned"))
              ++ [(bad.routerName, "Error: " ++ msg)])
    ∧ (provision_or_update_slice apply spec).2 =
        (good ++ [bad]).map fun e => ⟨e.routerName, e, spec⟩ := by
  have hne : st ≠ "ePipe" := by rcases hvp with rfl | rfl <;> decide
  have hcond : st = "VPLS" ∨ st = "VPRN" ∨ st = "ePipe" := by
    rcases hvp with rfl | rfl
    · exact Or.inl rfl
    · exact Or.inr (Or.inl rfl)
  have hrun := runEndpoints_fail apply spec st bad rest msg hbadname hbad good [] []
      hgoodname hgoodok (by intro x _ p hp; simp at hp) hpair
  have hps := provision_some apply spec st hst
  rw [if_pos hcond, if_neg hne, heps, hrun] at hps
  rw [hps]
  exact ⟨rfl, by simp [provisionErrorStatus], by simp⟩

/-- C6 witness: on the VPLS intent with endpoints A, B, C where B fails,
the pass errors, reports A Provisioned and B Error, and never contacts C. -/
theorem provision_fail_fast_witness :
    (provision_or_update_slice applyFailR2 failSecondIntent).1.status = "Error"
    ∧ (provision_or_update_slice applyFailR2 failSecondIntent).1.provisionedEndpoints =
        some [(some "R1", "VPLS Provisioned"), (some "R2", "Error: boom")]
    ∧ (provision_or_update_slice applyFailR2 failSecondIntent).2 =
        [⟨some "R1", epVA, failSecondIntent⟩, ⟨some "R2", epVB, failSecondIntent⟩] := by
  have h := provision_fail_fast applyFailR2 failSecondIntent "VPLS" [epVA] epVB [epVC] "boom"
      rfl (Or.inl rfl) rfl
      (by intro e he; rw [List.mem_singleton] at he; subst he; rfl)
      (by intro e he; rw [List.mem_singleton] at he; subst he; rfl)
      rfl rfl (by decide)
  exact ⟨h.1, by rw [h.2.1]; rfl, by rw [h.2.2]; rfl⟩

/-- C7: the delete pass is best-effort. For every device behaviour and every
intent, the delete trace covers exactly the endpoints with a truthy router
name — individual failures never stop the remaining endpoints — and the
returned success flag is true if and only if the delete succeeded on every
such endpoint; endpoints without a router name are skipped silently and do
not affect the flag. -/
theorem cleanup_best_effort
    (del : Option String → EndpointSpec → SliceSpec → Except String Unit)
    (spec : SliceSpec) :
    (cleanup_network_slice del spec).2 =
      (spec.endpoints.filter fun e => truthyName e.routerName).map
        (fun e => ⟨e.routerName, e, spec⟩)
    ∧ ((cleanup_network_slice del spec).1.1 = true ↔
        ∀ e ∈ spec.endpoints, truthyName e.routerName = true →
          del e.routerName e spec = .ok ()) := by
  have hloop := cleanupLoop_eq del spec spec.endpoints true []
  have key : ((spec.endpoints.filter fun e => truthyName e.routerName).all
      (fun e => isOkU (del e.routerName e spec)) = true)
      ↔ (∀ e ∈ spec.endpoints, truthyName e.routerName = true →
          del e.routerName e spec = .ok ()) := by
    rw [List.all_eq_true]
    constructor
    · intro hf e he ht
      exact (isOkU_eq_true _).mp (hf e (List.mem_filter.mpr ⟨he, ht⟩))
    · intro hf e he
      obtain ⟨he1, he2⟩ := List.mem_filter.mp he
      exact (isOkU_eq_true _).mpr (hf e he1 he2)
  constructor
  · simp only [cleanup_network_slice, hloop]
    simp
  · simp only [cleanup_network_slice, hloop, Bool.true_and]
    by_cases hall : (spec.endpoints.filter fun e => truthyName e.routerName).all
        (fun e => isOkU (del e.routerName e spec)) = true
    · rw [if_pos hall]
      simpa using key.mp hall
    · rw [if_neg hall]
      constructor
      · intro hcontra; exact Bool.noConfusion hcontra
      · intro hr; exact absurd (key.mpr hr) hall

theorem bool_not_eq_true_iff (x : Bool) (P : Prop) (h : x = true ↔ P) :
    ((!x) = true ↔ ¬ P) := by
  rw [← h]
  cases x <;> simp

/-- C8: on a structured observed document (SAP field absent or an array of
dicts), check_for_drift never raises, and reports drift exactly when the
observed description differs from the desired one, or the observed
admin-state differs from the desired one, or no entry of the observed SAP
list carries the desired sap-id interfaceName:vlanId — so an observed
document matching the desired fields yields no drift, and extra SAP entries
beyond the desired one are not drift (existence-based membership, not
set-equality). -/
theorem drift_flag_iff (e : EndpointSpec) (s : SliceSpec) (fields : List (String × Json))
    (h : sapFieldWellFormed fields = true) :
    (∃ b : Bool, check_for_drift e s (.obj fields) = .ok b)
    ∧ (check_for_drift e s (.obj fields) = .ok true ↔
        ((lookupField fields "nokia-conf:description").getD .null ≠ .str (descriptionOf s)
         ∨ (lookupField fields "nokia-conf:admin-state").getD .null ≠ .str (adminStateOf s)
         ∨ ¬ ∃ sap ∈ observedSapList fields,
             sapIdMatches (optStr e.interfaceName ++ ":" ++ optIntStr e.vlanID) sap = true)) := by
  have hsap1 : (lookupField fields "nokia-conf:sap").getD (Json.arr []) =
      Json.arr (observedSapList fields) := by
    unfold sapFieldWellFormed at h
    unfold observedSapList
    cases hk : lookupField fields "nokia-conf:sap" with
    | none => rfl
    | some v =>
        rw [hk] at h
        cases v with
        | arr l => rfl
        | null => exact Bool.noConfusion h
        | str s2 => exact Bool.noConfusion h
        | num n => exact Bool.noConfusion h
        | obj f2 => exact Bool.noConfusion h
  have hsap2 : (observedSapList fields).all sapEntryIsDict = true := by
    unfold sapFieldWellFormed at h
    unfold observedSapList
    cases hk : lookupField fields "nokia-conf:sap" with
    | none => rfl
    | some v =>
        rw [hk] at h
        cases v with
        | arr l => exact h
        | null => exact Bool.noConfusion h
        | str s2 => exact Bool.noConfusion h
        | num n => exact Bool.noConfusion h
        | obj f2 => exact Bool.noConfusion h
  have hkey : check_for_drift e s (.obj fields) =
      .ok ((!jsonEqStr ((lookupField fields "nokia-conf:description").getD .null)
              (descriptionOf s))
        || ((!jsonEqStr ((lookupField fields "nokia-conf:admin-state").getD .null)
              (adminStateOf s))
        || !((observedSapList fields).any
              (sapIdMatches (optStr e.interfaceName ++ ":" ++ optIntStr e.vlanID))))) := by
    unfold check_for_drift
    simp only [dictGet, dictGetD, Bind.bind, Except.bind, hsap1, sapSearch,
               sapSearchList_eq_any _ _ hsap2, Pure.pure, Except.pure, Bool.or_assoc]
  constructor
  · exact ⟨_, hkey⟩
  · rw [hkey]
    simp only [Except.ok.injEq]
    rw [Bool.or_eq_true, Bool.or_eq_true,
        bool_not_eq_true_iff _ _ (jsonEqStr_true_iff
          ((lookupField fields "nokia-conf:description").getD .null) (descriptionOf s)),
        bool_not_eq_true_iff _ _ (jsonEqStr_true_iff
          ((lookupField fields "nokia-conf:admin-state").getD .null) (adminStateOf s)),
        bool_not_eq_true_iff _ _ (List.any_eq_true)]

/-- C8 witness: the observed document that matches driftIntent on all three
checked fields satisfies the characterization; in particular it yields no
drift. -/
theorem drift_flag_iff_witness :
    (∃ b : Bool, check_for_drift epR1 driftIntent (.obj driftObservedFields) = .ok b)
    ∧ (check_for_drift epR1 driftIntent (.obj driftObservedFields) = .ok true ↔
        ((lookupField driftObservedFields "nokia-conf:description").getD .null ≠
            .str (descriptionOf driftIntent)
         ∨ (lookupField driftObservedFields "nokia-conf:admin-state").getD .null ≠
            .str (adminStateOf driftIntent)
         ∨ ¬ ∃ sap ∈ observedSapList driftObservedFields,
             sapIdMatches (optStr epR1.interfaceName ++ ":" ++ optIntStr epR1.vlanID) sap
               = true)) :=
  drift_flag_iff epR1 driftIntent driftObservedFields rfl

/-- C10 counterexample: a state response whose val field is present but is a
raw string lacks a readable oper-state, yet get_operational_status raises
TypeError on it instead of returning UNKNOWN, and in the periodic pass such
a router yields operationalStatus ERROR, not DOWN. -/
theorem oper_status_typeerror_on_malformed :
    get_operational_status malformedOperResponse = .error .typeError
    ∧ (drift_detection_check devOperTypeRaise operIntent).operationalStatus = "ERROR" :=
  ⟨rfl, rfl⟩

/-- C10 amended: get_operational_status returns the device-reported
oper-state upper-cased, or UNKNOWN when the field lookup fails with a
missing dictionary key (KeyError) or list index (IndexError) — and only
those are caught: a response whose intermediate value has the wrong type
raises TypeError, which the periodic pass records as ERROR. A router whose
read completes with a non-UP value such as UNKNOWN contributes a non-UP
reading: if no endpoint errors and some endpoint reads non-UP, the overall
operationalStatus is DOWN. -/
theorem oper_status_unknown_on_missing_fields :
    (∀ response : Json, operStateRead response = .error .keyError →
        get_operational_status response = .ok "UNKNOWN")
    ∧ (∀ response : Json, operStateRead response = .error .indexError →
        get_operational_status response = .ok "UNKNOWN")
    ∧ (∀ (response : Json) (s : String), operStateRead response = .ok s →
        get_operational_status response = .ok s)
    ∧ (∀ (dev : EndpointSpec → DeviceBehavior) (spec : SliceSpec),
        (∀ e ∈ spec.endpoints,
          endpointDriftEvent dev spec (optStr spec.serviceType) e ≠ some .errored) →
        (∃ e ∈ spec.endpoints,
          endpointDriftEvent dev spec (optStr spec.serviceType) e = some .nonUp) →
        (drift_detection_check dev spec).operationalStatus = "DOWN") := by
  refine ⟨?_, ?_, ?_, ?_⟩
  · intro r hr; unfold get_operational_status; rw [hr]
  · intro r hr; unfold get_operational_status; rw [hr]
  · intro r s hr; unfold get_operational_status; rw [hr]
  · intro dev spec hnoerr hnonup
    obtain ⟨e, he, hev⟩ := hnonup
    have hmem : DriftEvent.nonUp ∈ spec.endpoints.filterMap
        (endpointDriftEvent dev spec (optStr spec.serviceType)) :=
      List.mem_filterMap.mpr ⟨e, he, hev⟩
    have hne : spec.endpoints.filterMap (endpointDriftEvent dev spec (optStr spec.serviceType))
        ≠ [] := List.ne_nil_of_mem hmem
    have hchar : (drift_detection_check dev spec).operationalStatus =
        (match (spec.endpoints.filterMap
            (endpointDriftEvent dev spec (optStr spec.serviceType))).getLast? with
         | some ev => eventStatus ev
         | none => "UP") := by
      show (driftLoop dev spec (optStr spec.serviceType) spec.endpoints [] "UP").2 = _
      rw [driftLoop_snd, foldOverall_eq_getLast]
    have hall : ∀ y ∈ spec.endpoints.filterMap
        (endpointDriftEvent dev spec (optStr spec.serviceType)), y = DriftEvent.nonUp := by
      intro y hy
      obtain ⟨e2, he2, hfe2⟩ := List.mem_filterMap.mp hy
      cases y with
      | nonUp => rfl
      | errored => exact absurd hfe2 (hnoerr e2 he2)
    rw [hchar, List.getLast?_eq_getLast_of_ne_nil hne, hall _ (List.getLast_mem hne)]
    rfl

/-- C10 witness: an empty-dict state response reads UNKNOWN, and with every
device healthy but reporting that UNKNOWN state, the periodic pass for the
single-endpoint intent ends with operationalStatus DOWN. -/
theorem oper_status_unknown_witness :
    get_operational_status (.obj []) = .ok "UNKNOWN"
    ∧ (drift_detection_check devOperUnknown operIntent).operationalStatus = "DOWN" := by
  constructor
  · exact oper_status_unknown_on_missing_fields.1 (.obj []) rfl
  · exact oper_status_unknown_on_missing_fields.2.2.2 devOperUnknown operIntent
      (by decide) ⟨epR1, by decide, by decide⟩
